import Mathlib

/-!
# go-ipld-test: the control flow of `main`

`main.go` is one straight-line function that calls into go-ipld-prime and the
protobuf runtime.  The libraries are not part of the repository, so every call
into them is a field of `Lib`: a function whose result is either a returned
value (with Go's `error` where the call has one) or a Go panic.  `main` itself
is embedded call by call; each call is recorded in the trace under the line of
`main.go` that makes it.
-/

namespace GoIpldTest

/-! ## Values -/

/-- A Go byte slice. -/
abbrev Bytes := List UInt8

/-- What a call into a library does: it returns, or it panics with a message. -/
inductive Ret (α : Type) where
  | returned (a : α)
  | panicked (msg : String)

/-- The local struct type `Person` of `main` (lines 36-40): `Age` is a nilable
pointer and `Friends` a nilable slice. -/
structure Person where
  Name : String
  Age : Option Int
  Friends : Option (List String)

/-- Modelled from the spec: the generated message type `model.Person`
(`model/person.pb.go` is not among the sources), a protocol message with the
fields `name: string` and `age: integer` that lines 57-60 set. -/
structure ModelPerson where
  Name : String
  Age : Int

/-- The first argument of `bindnode.Wrap`, an `interface{}`: `main` passes the
pointer to its local `Person` (line 45) and the dynamic message (line 140). -/
inductive WrapArg (D : Type) where
  | person (p : Person)
  | dynamicMessage (m : D)

/-- The third-party operations `main` calls, with the types of the values they
hand back.  A result that Go can return as `nil` is an `Option`; a Go `error`
is its message. -/
structure Lib where
  TypeSystem : Type
  SchemaType : Type
  Node : Type
  FileDescriptorSet : Type
  Files : Type
  FileDescriptor : Type
  MessageDescriptors : Type
  MessageDescriptor : Type
  DynamicMessage : Type
  /-- The call `ipld.LoadSchemaBytes(src)`. -/
  LoadSchemaBytes : String → Ret (Except String TypeSystem)
  /-- The call `ts.TypeByName(name)`. -/
  TypeByName : TypeSystem → String → Ret (Option SchemaType)
  /-- The call `bindnode.Wrap(ptrVal, schemaType)`; it has no error result. -/
  Wrap : WrapArg DynamicMessage → Option SchemaType → Ret Node
  /-- The call `node.Representation()`. -/
  Representation : Node → Ret Node
  /-- The call `dagjson.Encode(n, os.Stdout)`: the text it wrote to standard
  output, and its error result (`none` is Go's `nil` error). -/
  Encode : Node → String × Ret (Option String)
  /-- The call `proto.Marshal(m)` on a `*model.Person`. -/
  Marshal : ModelPerson → Ret (Except String Bytes)
  /-- The call `proto.Unmarshal(b, m)` with `m` a `*model.Person`: the error,
  or the target as the call left it. -/
  Unmarshal_Person : Bytes → ModelPerson → Ret (Except String ModelPerson)
  /-- The call `proto.Unmarshal(b, m)` with `m` an empty
  `*descriptorpb.FileDescriptorSet`. -/
  Unmarshal_FileDescriptorSet : Bytes → Ret (Except String FileDescriptorSet)
  /-- The call `proto.Unmarshal(b, m)` with `m` a `*dynamicpb.Message`. -/
  Unmarshal_Dynamic : Bytes → DynamicMessage → Ret (Except String DynamicMessage)
  /-- The call `protodesc.NewFiles(set)`. -/
  NewFiles : FileDescriptorSet → Ret (Except String Files)
  /-- The call `files.FindFileByPath(path)`. -/
  FindFileByPath : Files → String → Ret (Except String FileDescriptor)
  /-- The accessor `fileDescriptor.Path()`. -/
  Path : FileDescriptor → String
  /-- The accessor `fileDescriptor.Package()`. -/
  Package : FileDescriptor → String
  /-- The accessor `fileDescriptor.Messages()`. -/
  Messages : FileDescriptor → MessageDescriptors
  /-- The call `messages.ByName(name)`. -/
  ByName : MessageDescriptors → String → Ret (Option MessageDescriptor)
  /-- The call `dynamicpb.NewMessage(desc)`. -/
  NewMessage : Option MessageDescriptor → Ret DynamicMessage
  /-- How `fmt` prints a `*model.Person` under `%v`. -/
  fmtPerson : ModelPerson → String
  /-- How `fmt` prints a file descriptor under `%v`. -/
  fmtFileDescriptor : FileDescriptor → String
  /-- How `fmt` prints a message collection under `%v`. -/
  fmtMessages : MessageDescriptors → String
  /-- How `fmt` prints a message descriptor that is not nil under `%v`. -/
  fmtMessageDescriptor : MessageDescriptor → String
  /-- How `fmt` prints a dynamic message under `%v`. -/
  fmtDynamic : DynamicMessage → String

/-! ## The process -/

/-- The library call sites of `main`; a nilable argument that the call receives
is recorded as absent or present. -/
inductive Call where
  | LoadSchemaBytes
  | TypeByName
  | Wrap (schemaNil : Bool)
  | Representation
  | Encode
  | Marshal
  | Unmarshal
  | ReadFile
  | NewFiles
  | FindFileByPath
  | ByName
  | NewMessage (descNil : Bool)
  deriving DecidableEq, Repr

/-- How a call ended: it returned (without error), returned `nil` where a value
was asked for, returned an error, or panicked. -/
inductive Outcome where
  | returned
  | returnedNil
  | failed (err : String)
  | panicked (msg : String)
  deriving DecidableEq, Repr

/-- One executed call: the line of `main.go`, the call, and how it ended. -/
structure Event where
  line : Nat
  call : Call
  outcome : Outcome
  deriving DecidableEq, Repr

/-- What a piece of the program did, in order: the text written to standard
output, the diagnostics on standard error, and the library calls made. -/
structure Proc where
  stdout : String
  stderr : List String
  trace : List Event
  deriving DecidableEq, Repr

/-- Nothing done. -/
def Proc.nothing : Proc := { stdout := "", stderr := [], trace := [] }

/-- What `p` did, then what `q` did. -/
def Proc.andThen (p q : Proc) : Proc :=
  { stdout := p.stdout ++ q.stdout, stderr := p.stderr ++ q.stderr, trace := p.trace ++ q.trace }

/-- How a piece of the program ends: control goes on with a value, or the
process has ended with an exit status. -/
inductive Step (α : Type) where
  | next (a : α)
  | exit (code : Nat)

/-- A piece of the program, executed: how it ended and what it did. -/
structure Go (α : Type) where
  step : Step α
  did : Proc

/-- Go on with a value, doing nothing. -/
def Go.pure {α : Type} (a : α) : Go α := ⟨Step.next a, Proc.nothing⟩

/-- Sequencing: the second piece runs after the first, and nothing runs after
the process has ended. -/
def Go.bind {α β : Type} (m : Go α) (f : α → Go β) : Go β :=
  match m.step with
  | Step.next a => ⟨(f a).step, m.did.andThen (f a).did⟩
  | Step.exit c => ⟨Step.exit c, m.did⟩

instance : Monad Go where
  pure := Go.pure
  bind := Go.bind

/-- Append text to standard output (`os.Stdout` is written through, unbuffered). -/
def write (s : String) : Go Unit :=
  ⟨Step.next (), { stdout := s, stderr := [], trace := [] }⟩

/-- Record an executed call. -/
def record (line : Nat) (call : Call) (o : Outcome) : Go Unit :=
  ⟨Step.next (), { stdout := "", stderr := [], trace := [⟨line, call, o⟩] }⟩

/-- End the process: one diagnostic on standard error and an exit status. -/
def die {α : Type} (code : Nat) (diagnostic : String) : Go α :=
  ⟨Step.exit code, { stdout := "", stderr := [diagnostic], trace := [] }⟩

/-- Go's `panic(v)` with nothing recovering it: the runtime prints the value
(the goroutine dump is left out) and the process exits with status 2. -/
def goPanic {α : Type} (v : String) : Go α := die 2 ("panic: " ++ v)

/-- The call `log.Fatalf`: the formatted message on standard error (the time
stamp in front is left out) and `os.Exit(1)`. -/
def logFatalf {α : Type} (msg : String) : Go α := die 1 msg

/-- A library call without an error result. -/
def call {α : Type} (line : Nat) (c : Call) (r : Ret α) : Go α :=
  match r with
  | .returned a => do record line c .returned; pure a
  | .panicked msg => do record line c (.panicked msg); goPanic msg

/-- A library call whose result may be `nil`. -/
def callNilable {α : Type} (line : Nat) (c : Call) (r : Ret (Option α)) : Go (Option α) :=
  match r with
  | .returned (some a) => do record line c .returned; pure (some a)
  | .returned none => do record line c .returnedNil; pure none
  | .panicked msg => do record line c (.panicked msg); goPanic msg

/-- A library call with an error result, handed to the caller as in Go. -/
def callErr {α : Type} (line : Nat) (c : Call) (r : Ret (Except String α)) :
    Go (Except String α) :=
  match r with
  | .returned (.ok a) => do record line c .returned; pure (.ok a)
  | .returned (.error e) => do record line c (.failed e); pure (.error e)
  | .panicked msg => do record line c (.panicked msg); goPanic msg

/-- The call `dagjson.Encode(n, os.Stdout)` as a statement: what it wrote goes to
standard output, and its error result is handed to the caller. -/
def callEncode (line : Nat) (r : String × Ret (Option String)) : Go (Option String) :=
  match r with
  | (w, .returned none) => do write w; record line .Encode .returned; pure none
  | (w, .returned (some e)) => do write w; record line .Encode (.failed e); pure (some e)
  | (w, .panicked msg) => do write w; record line .Encode (.panicked msg); goPanic msg

/-- The call `ioutil.ReadFile(path)` against the files of the run. -/
def callReadFile (line : Nat) (r : Except String Bytes) : Go (Except String Bytes) :=
  match r with
  | .ok b => do record line .ReadFile .returned; pure (.ok b)
  | .error e => do record line .ReadFile (.failed e); pure (.error e)

/-- The statement `fmt.Println(a, b, ...)`: operands separated by a blank, then a newline. -/
def Println (operands : List String) : Go Unit :=
  write (" ".intercalate operands ++ "\n")

/-- How `fmt` prints a nilable message descriptor under `%v`. -/
def fmtNilable (L : Lib) : Option L.MessageDescriptor → String
  | none => "<nil>"
  | some d => L.fmtMessageDescriptor d

/-! ## `main` -/

/-- The schema text of lines 24-30. -/
def schemaText : String :=
  "\n\ttype Person struct \x7b\n\t\tName    String\n\t\tAge     optional Int\n\t\tFriends optional [String]\n\t\x7d\n"

/-- The value `ipldPerson` of lines 41-44. -/
def ipldPerson : Person :=
  { Name := "Michael", Age := none, Friends := some ["Sarah", "Alex"] }

/-- The value `person` of lines 57-60. -/
def person : ModelPerson := { Name := "Alex", Age := 20 }

/-- The zero message `&model.Person{}` of line 70. -/
def emptyPerson : ModelPerson := { Name := "", Age := 0 }

/-- The constant `sourceDescriptorFilePath` (line 84). -/
def sourceDescriptorFilePath : String := "model/descriptor.pb"

/-- The constant `protoFilePath` (line 85). -/
def protoFilePath : String := "person.proto"

/-- The constant `protoMessageName` (line 86). -/
def protoMessageName : String := "Person"

/-- Lines 24-48: load the schema, wrap `ipldPerson`, encode its representation.
The result of `dagjson.Encode` on line 48 is not assigned. -/
def schemaPart (L : Lib) : Go Unit := do
  let r ← callErr 24 .LoadSchemaBytes (L.LoadSchemaBytes schemaText)
  match r with
  | .error err => goPanic err
  | .ok ts =>
    let schemaType ← callNilable 34 .TypeByName (L.TypeByName ts "Person")
    let personNode ← call 45 (.Wrap schemaType.isNone) (L.Wrap (.person ipldPerson) schemaType)
    let personNodeRepr ← call 47 .Representation (L.Representation personNode)
    let _ ← callEncode 48 (L.Encode personNodeRepr)
    pure ()

/-- Lines 56-76: print `person`, marshal it, unmarshal the bytes into a new
message and print that; the bytes `personData` are kept for later. -/
def roundTripPart (L : Lib) : Go Bytes := do
  Println ["Original person: ", L.fmtPerson person]
  let r ← callErr 64 .Marshal (L.Marshal person)
  match r with
  | .error err => goPanic err
  | .ok personData =>
    let r ← callErr 71 .Unmarshal (L.Unmarshal_Person personData emptyPerson)
    match r with
    | .error err => goPanic err
    | .ok newPerson =>
      write ("Deserialized person: " ++ L.fmtPerson newPerson ++ "\n")
      pure personData

/-- Lines 84-126: read the descriptor set, build the registry, find the file,
print it, and look the message descriptor up by name.  The result of the lookup
on line 124 is printed and returned as it is. -/
def descriptorPart (L : Lib) (ReadFile : String → Except String Bytes) :
    Go (Option L.MessageDescriptor) := do
  let r ← callReadFile 89 (ReadFile sourceDescriptorFilePath)
  match r with
  | .error err => logFatalf ("Error reading .proto file: " ++ err)
  | .ok descriptorSet =>
    let r ← callErr 96 .Unmarshal (L.Unmarshal_FileDescriptorSet descriptorSet)
    match r with
    | .error err => logFatalf ("Error parsing FileDescriptorSet: " ++ err)
    | .ok fileDescriptorSet =>
      let r ← callErr 101 .NewFiles (L.NewFiles fileDescriptorSet)
      match r with
      | .error err =>
        logFatalf ("Error creating a protoRegistry from a fileDescriptorSet: " ++ err)
      | .ok protoRegistryFiles =>
        let r ← callErr 107 .FindFileByPath (L.FindFileByPath protoRegistryFiles protoFilePath)
        match r with
        | .error err =>
          logFatalf ("Error finding descriptor for file " ++ protoFilePath ++ ": " ++ err)
        | .ok fileDescriptor =>
          Println []
          Println ["FileDescriptor: ", L.fmtFileDescriptor fileDescriptor]
          Println []
          Println ["File path: ", L.Path fileDescriptor]
          Println ["Package name: ", L.Package fileDescriptor]
          Println ["Messages: ", L.fmtMessages (L.Messages fileDescriptor)]
          Println []
          let personMessageDescriptor ←
            callNilable 124 .ByName (L.ByName (L.Messages fileDescriptor) protoMessageName)
          Println ["Person MessageDescriptor:", fmtNilable L personMessageDescriptor]
          Println []
          pure personMessageDescriptor

/-- Lines 128-143: build the dynamic message from the descriptor, unmarshal
`personData` into it, print it, wrap it with a nil schema and encode the
representation.  The result of `dagjson.Encode` on line 143 is not assigned. -/
def dynamicPart (L : Lib) (personData : Bytes)
    (personMessageDescriptor : Option L.MessageDescriptor) : Go Unit := do
  let dynamicMessage ← call 129 (.NewMessage personMessageDescriptor.isNone)
    (L.NewMessage personMessageDescriptor)
  let r ← callErr 130 .Unmarshal (L.Unmarshal_Dynamic personData dynamicMessage)
  match r with
  | .error err => logFatalf ("Error parsing personData: " ++ err)
  | .ok dynamicMessage =>
    write ("Deserialized dynamic person: " ++ L.fmtDynamic dynamicMessage ++ "\n")
    let node ← call 140 (.Wrap true) (L.Wrap (.dynamicMessage dynamicMessage) none)
    let nodeRepr ← call 142 .Representation (L.Representation node)
    let _ ← callEncode 143 (L.Encode nodeRepr)
    pure ()

/-- The function `main` (lines 22-150). -/
def main (L : Lib) (ReadFile : String → Except String Bytes) : Go Unit := do
  schemaPart L
  let personData ← roundTripPart L
  let personMessageDescriptor ← descriptorPart L ReadFile
  dynamicPart L personData personMessageDescriptor

/-- A finished run: what was written, the calls made, and the exit status. -/
structure Run where
  stdout : String
  stderr : List String
  trace : List Event
  exit : Nat
  deriving DecidableEq, Repr

/-- The exit status of the process: `main` returning ends it with status 0. -/
def exitStatus : Step Unit → Nat
  | Step.next _ => 0
  | Step.exit c => c

/-- One run of the program against the libraries `L` and the files `ReadFile`. -/
def run (L : Lib) (ReadFile : String → Except String Bytes) : Run :=
  let m := main L ReadFile
  ⟨m.did.stdout, m.did.stderr, m.did.trace, exitStatus m.step⟩

/-! ## Reading a run -/

/-- An error that `main` checks: a call other than `dagjson.Encode` returned an
error (schema load, marshal, unmarshal, file read, registry build, file lookup). -/
def Event.enumeratedError (e : Event) : Bool :=
  match e.outcome, e.call with
  | .failed _, .Encode => false
  | .failed _, _ => true
  | _, _ => false

/-- The call panicked. -/
def Event.isPanic (e : Event) : Bool :=
  match e.outcome with
  | .panicked _ => true
  | _ => false

/-- The call returned without error or panic. -/
def Event.succeeded (e : Event) : Bool :=
  match e.outcome with
  | .returned => true
  | .returnedNil => true
  | _ => false

/-- The process so far, just before line 89 reads the descriptor file: lines 24-76. -/
def beforeDescriptor (L : Lib) : Go Bytes := do
  schemaPart L
  roundTripPart L

/-! ## Concrete runs

A scripted stand-in for the libraries, for runs that can be evaluated: it
answers every call of `main` from a short script. -/

/-- What the stand-in is told to do. -/
structure Script where
  /-- The message names the file `person.proto` declares. -/
  declared : List String
  /-- Whether `bindnode.Wrap` with a nil schema panics on a dynamic message. -/
  inferPanics : Bool

/-- The wire bytes of the message with name `Alex` and age `20`. -/
def alexBytes : Bytes := [10, 4, 65, 108, 101, 120, 16, 20]

/-- The scripted stand-in for the libraries. -/
def scripted (s : Script) : Lib where
  TypeSystem := Unit
  SchemaType := Unit
  Node := String
  FileDescriptorSet := Bytes
  Files := Bytes
  FileDescriptor := String
  MessageDescriptors := List String
  MessageDescriptor := String
  DynamicMessage := Option String
  LoadSchemaBytes := fun _ => .returned (.ok ())
  TypeByName := fun _ _ => .returned (some ())
  Wrap := fun v _ =>
    match v with
    | .person _ => .returned "\x7b\"Name\":\"Michael\",\"Friends\":[\"Sarah\",\"Alex\"]\x7d"
    | .dynamicMessage _ =>
      if s.inferPanics then .panicked "bindnode: unable to infer from interface"
      else .returned "\x7b\x7d"
  Representation := fun n => .returned n
  Encode := fun n => (n, .returned none)
  Marshal := fun _ => .returned (.ok alexBytes)
  Unmarshal_Person := fun _ _ => .returned (.ok person)
  Unmarshal_FileDescriptorSet := fun b => .returned (.ok b)
  Unmarshal_Dynamic := fun _ m =>
    match m with
    | some d => .returned (.ok (some d))
    | none => .panicked "runtime error: invalid memory address or nil pointer dereference"
  NewFiles := fun b => .returned (.ok b)
  FindFileByPath := fun _ path => .returned (.ok path)
  Path := fun f => f
  Package := fun _ => "model"
  Messages := fun _ => s.declared
  ByName := fun ms name => .returned (ms.find? (fun m => m == name))
  NewMessage := fun d => .returned d
  fmtPerson := fun m => "name:\"" ++ m.Name ++ "\" age:" ++ toString m.Age
  fmtFileDescriptor := fun f => f
  fmtMessages := fun ms => toString ms
  fmtMessageDescriptor := fun d => d
  fmtDynamic := fun _ => "name:\"Alex\" age:20"

/-- Files of a run in which `model/descriptor.pb` exists. -/
def descriptorPresent : String → Except String Bytes :=
  fun _ => .ok [10, 0]

/-- Files of a run in which `model/descriptor.pb` is missing. -/
def descriptorMissing : String → Except String Bytes :=
  fun path => .error ("open " ++ path ++ ": no such file or directory")

/-- The libraries as the program meets them: encoding works, the file declares
`Person`, and inferring a schema for the dynamic message panics (line 139). -/
def usual : Script :=
  { declared := ["Person"], inferPanics := true }

/-- A descriptor set whose `person.proto` declares no message `Person`. -/
def noPersonMessage : Script :=
  { usual with declared := ["Address"] }

/-! ## Sequencing -/

theorem Proc.andThen_assoc (p q r : Proc) :
    (p.andThen q).andThen r = p.andThen (q.andThen r) := by
  simp [Proc.andThen, String.append_assoc, List.append_assoc]

theorem Proc.nothing_andThen (p : Proc) : Proc.nothing.andThen p = p := by
  simp [Proc.andThen, Proc.nothing]

theorem Proc.andThen_nothing (p : Proc) : p.andThen Proc.nothing = p := by
  simp [Proc.andThen, Proc.nothing]

theorem bind_eq_go {α β : Type} (m : Go α) (f : α → Go β) : (m >>= f) = Go.bind m f := rfl

theorem pure_eq_go {α : Type} (a : α) : (pure a : Go α) = Go.pure a := rfl

theorem Go.bind_next {α β : Type} (m : Go α) (f : α → Go β) (a : α)
    (h : m.step = Step.next a) :
    Go.bind m f = ⟨(f a).step, m.did.andThen (f a).did⟩ := by
  simp [Go.bind, h]

theorem Go.bind_exit {α β : Type} (m : Go α) (f : α → Go β) (c : Nat)
    (h : m.step = Step.exit c) :
    Go.bind m f = ⟨Step.exit c, m.did⟩ := by
  simp [Go.bind, h]

theorem Go.bind_assoc {α β γ : Type} (m : Go α) (f : α → Go β) (g : β → Go γ) :
    Go.bind (Go.bind m f) g = Go.bind m (fun a => Go.bind (f a) g) := by
  cases hm : m.step with
  | exit c => simp [Go.bind, hm]
  | next a =>
    cases hf : (f a).step with
    | exit c => simp [Go.bind, hm, hf]
    | next b => simp [Go.bind, hm, hf, Proc.andThen_assoc]

/-- Whatever follows a piece of the program only adds to its standard output. -/
theorem Go.bind_stdout {α β : Type} (m : Go α) (f : α → Go β) :
    ∃ rest, (Go.bind m f).did.stdout = m.did.stdout ++ rest := by
  cases hm : m.step with
  | exit c => exact ⟨"", by simp [Go.bind, hm]⟩
  | next a => exact ⟨(f a).did.stdout, by simp [Go.bind, hm, Proc.andThen]⟩

/-- The function `main` is the part before the descriptor file is read, followed by the rest. -/
theorem main_split (L : Lib) (ReadFile : String → Except String Bytes) :
    main L ReadFile =
      Go.bind (beforeDescriptor L) (fun personData =>
        Go.bind (descriptorPart L ReadFile) (fun d => dynamicPart L personData d)) := by
  simp only [main, beforeDescriptor, bind_eq_go, Go.bind_assoc]

/-! ## What ends the process -/

/-- An event that ends the process: a panic, or an error that `main` checks. -/
def Event.fatal (e : Event) : Bool := e.isPanic || e.enumeratedError

/-- A piece of the program ends the process only with a non-zero status, a
diagnostic and a fatal event behind it, and goes on only without any of them. -/
def Sound {α : Type} (m : Go α) : Prop :=
  (∀ a, m.step = Step.next a → m.did.stderr = [] ∧ ∀ e ∈ m.did.trace, e.fatal = false) ∧
  (∀ c, m.step = Step.exit c →
    c ≠ 0 ∧ m.did.stderr ≠ [] ∧ ∃ e ∈ m.did.trace, e.fatal = true)

theorem Sound.bind {α β : Type} (m : Go α) (f : α → Go β) (hm : Sound m)
    (hf : ∀ a, Sound (f a)) : Sound (Go.bind m f) := by
  cases hs : m.step with
  | exit c =>
    obtain ⟨h1, h2, e, he, hfat⟩ := hm.2 c hs
    rw [Go.bind_exit m f c hs]
    refine ⟨fun a h => by simp at h, fun c2 h => ?_⟩
    simp only [Step.exit.injEq] at h
    subst h
    exact ⟨h1, h2, e, he, hfat⟩
  | next a =>
    obtain ⟨h1, h2⟩ := hm.1 a hs
    rw [Go.bind_next m f a hs]
    constructor
    · intro b hb
      obtain ⟨g1, g2⟩ := (hf a).1 b hb
      refine ⟨by simp [Proc.andThen, h1, g1], ?_⟩
      intro e he
      simp only [Proc.andThen, List.mem_append] at he
      rcases he with he | he
      · exact h2 e he
      · exact g2 e he
    · intro c hc
      obtain ⟨g1, g2, e, he, hfat⟩ := (hf a).2 c hc
      refine ⟨g1, by simp [Proc.andThen, g2], e, ?_, hfat⟩
      simp [Proc.andThen, he]

theorem schemaPart_sound (L : Lib) : Sound (schemaPart L) := by
  unfold schemaPart Sound
  rcases h24 : L.LoadSchemaBytes schemaText with (e | ts) | msg
  · simp [bind_eq_go, pure_eq_go, Go.bind, Go.pure, callErr, record, goPanic, die,
      Proc.andThen, Proc.nothing, Event.fatal, Event.isPanic, Event.enumeratedError]
  · simp only [bind_eq_go, pure_eq_go, Go.bind, Go.pure, callErr, callNilable, call,
      callEncode, record, goPanic, die, write, Proc.andThen, Proc.nothing]
    repeat' split
    all_goals simp_all [Event.fatal, Event.isPanic, Event.enumeratedError]
    all_goals omega
  · simp [bind_eq_go, pure_eq_go, Go.bind, Go.pure, callErr, record, goPanic, die,
      Proc.andThen, Proc.nothing, Event.fatal, Event.isPanic, Event.enumeratedError]

theorem roundTripPart_sound (L : Lib) : Sound (roundTripPart L) := by
  unfold roundTripPart Sound
  rcases h64 : L.Marshal person with (e | data) | msg
  · simp [bind_eq_go, pure_eq_go, Go.bind, Go.pure, callErr, record, goPanic, die, Println,
      write, Proc.andThen, Proc.nothing, Event.fatal, Event.isPanic, Event.enumeratedError]
  · rcases h71 : L.Unmarshal_Person data emptyPerson with (e | np) | msg <;>
      simp [bind_eq_go, pure_eq_go, Go.bind, Go.pure, callErr, record, goPanic, die, Println,
        write, Proc.andThen, Proc.nothing, Event.fatal, Event.isPanic, Event.enumeratedError,
        h71]
  · simp [bind_eq_go, pure_eq_go, Go.bind, Go.pure, callErr, record, goPanic, die, Println,
      write, Proc.andThen, Proc.nothing, Event.fatal, Event.isPanic, Event.enumeratedError]

theorem descriptorPart_sound (L : Lib) (ReadFile : String → Except String Bytes) :
    Sound (descriptorPart L ReadFile) := by
  unfold descriptorPart Sound
  rcases h89 : ReadFile sourceDescriptorFilePath with e | descriptorSet
  · simp [bind_eq_go, pure_eq_go, Go.bind, Go.pure, callReadFile, record, logFatalf, die,
      Proc.andThen, Proc.nothing, Event.fatal, Event.isPanic, Event.enumeratedError]
  rcases h96 : L.Unmarshal_FileDescriptorSet descriptorSet with (e | set) | msg
  · simp [bind_eq_go, pure_eq_go, Go.bind, Go.pure, callReadFile, callErr, record, logFatalf,
      goPanic, die, Proc.andThen, Proc.nothing, Event.fatal, Event.isPanic,
      Event.enumeratedError, h96]
  · rcases h101 : L.NewFiles set with (e | files) | msg
    · simp [bind_eq_go, pure_eq_go, Go.bind, Go.pure, callReadFile, callErr, record, logFatalf,
        goPanic, die, Proc.andThen, Proc.nothing, Event.fatal, Event.isPanic,
        Event.enumeratedError, h96, h101]
    · rcases h107 : L.FindFileByPath files protoFilePath with (e | fd) | msg
      · simp [bind_eq_go, pure_eq_go, Go.bind, Go.pure, callReadFile, callErr, record,
          logFatalf, goPanic, die, Proc.andThen, Proc.nothing, Event.fatal, Event.isPanic,
          Event.enumeratedError, h96, h101, h107]
      · rcases h124 : L.ByName (L.Messages fd) protoMessageName with (_ | d) | msg <;>
          simp [bind_eq_go, pure_eq_go, Go.bind, Go.pure, callReadFile, callErr, callNilable,
            record, logFatalf, goPanic, die, Println, write, Proc.andThen, Proc.nothing,
            Event.fatal, Event.isPanic, Event.enumeratedError, h96, h101, h107, h124]
      · simp [bind_eq_go, pure_eq_go, Go.bind, Go.pure, callReadFile, callErr, record,
          logFatalf, goPanic, die, Proc.andThen, Proc.nothing, Event.fatal, Event.isPanic,
          Event.enumeratedError, h96, h101, h107]
    · simp [bind_eq_go, pure_eq_go, Go.bind, Go.pure, callReadFile, callErr, record, logFatalf,
        goPanic, die, Proc.andThen, Proc.nothing, Event.fatal, Event.isPanic,
        Event.enumeratedError, h96, h101]
  · simp [bind_eq_go, pure_eq_go, Go.bind, Go.pure, callReadFile, callErr, record, logFatalf,
      goPanic, die, Proc.andThen, Proc.nothing, Event.fatal, Event.isPanic,
      Event.enumeratedError, h96]

theorem dynamicPart_sound (L : Lib) (personData : Bytes) (d : Option L.MessageDescriptor) :
    Sound (dynamicPart L personData d) := by
  unfold dynamicPart Sound
  rcases h129 : L.NewMessage d with m | msg
  · rcases h130 : L.Unmarshal_Dynamic personData m with (e | m2) | msg
    · simp [bind_eq_go, pure_eq_go, Go.bind, Go.pure, call, callErr, record, logFatalf,
        goPanic, die, Proc.andThen, Proc.nothing, Event.fatal, Event.isPanic,
        Event.enumeratedError, h130]
    · simp only [bind_eq_go, pure_eq_go, Go.bind, Go.pure, callErr, call, callEncode, record,
        goPanic, die, write, Proc.andThen, Proc.nothing, h130]
      repeat' split
      all_goals simp_all [Event.fatal, Event.isPanic, Event.enumeratedError]
      all_goals omega
    · simp [bind_eq_go, pure_eq_go, Go.bind, Go.pure, call, callErr, record, logFatalf,
        goPanic, die, Proc.andThen, Proc.nothing, Event.fatal, Event.isPanic,
        Event.enumeratedError, h130]
  · simp [bind_eq_go, pure_eq_go, Go.bind, Go.pure, call, callErr, record, logFatalf,
      goPanic, die, Proc.andThen, Proc.nothing, Event.fatal, Event.isPanic,
      Event.enumeratedError]

/-- The whole of `main` ends the process only through a fatal event. -/
theorem main_sound (L : Lib) (ReadFile : String → Except String Bytes) :
    Sound (main L ReadFile) := by
  rw [main_split]
  refine Sound.bind _ _ ?_ (fun personData => Sound.bind _ _ (descriptorPart_sound L ReadFile)
    (fun d => dynamicPart_sound L personData d))
  exact Sound.bind _ _ (schemaPart_sound L) (fun _ => roundTripPart_sound L)

theorem Go.bind_step_next {α β : Type} (m : Go α) (f : α → Go β) (b : β)
    (h : (Go.bind m f).step = Step.next b) :
    ∃ a, m.step = Step.next a ∧ (f a).step = Step.next b ∧
      (Go.bind m f).did = m.did.andThen (f a).did := by
  cases hs : m.step with
  | exit c => rw [Go.bind_exit m f c hs] at h; simp at h
  | next a =>
    rw [Go.bind_next m f a hs] at h
    exact ⟨a, rfl, h, by rw [Go.bind_next m f a hs]⟩

/-- An event of a clean call is not fatal. -/
theorem Event.succeeded_not_fatal (e : Event) (h : e.succeeded = true) : e.fatal = false := by
  rcases e with ⟨line, call, o⟩
  cases o <;> simp_all [Event.succeeded, Event.fatal, Event.isPanic, Event.enumeratedError]

/-- When lines 128-143 run to their end, the encode call of line 143 was made. -/
theorem dynamicPart_reaches (L : Lib) (personData : Bytes) (d : Option L.MessageDescriptor)
    (u : Unit) (h : (dynamicPart L personData d).step = Step.next u) :
    ∃ e ∈ (dynamicPart L personData d).did.trace, e.line = 143 ∧ e.call = Call.Encode := by
  revert h
  unfold dynamicPart
  rcases h129 : L.NewMessage d with m | msg
  · rcases h130 : L.Unmarshal_Dynamic personData m with (e | m2) | msg
    · simp [bind_eq_go, pure_eq_go, Go.bind, Go.pure, call, callErr, record, logFatalf,
        goPanic, die, Proc.andThen, Proc.nothing, h130]
    · simp only [bind_eq_go, pure_eq_go, Go.bind, Go.pure, callErr, call, callEncode, record,
        goPanic, die, write, Proc.andThen, Proc.nothing, h130]
      repeat' split
      all_goals simp_all
    · simp [bind_eq_go, pure_eq_go, Go.bind, Go.pure, call, callErr, record, logFatalf,
        goPanic, die, Proc.andThen, Proc.nothing, h130]
  · simp [bind_eq_go, pure_eq_go, Go.bind, Go.pure, call, callErr, record, logFatalf,
      goPanic, die, Proc.andThen, Proc.nothing]

/-- When `main` returns, the encode call of line 143 was made. -/
theorem main_reaches (L : Lib) (ReadFile : String → Except String Bytes) (u : Unit)
    (h : (main L ReadFile).step = Step.next u) :
    ∃ e ∈ (main L ReadFile).did.trace, e.line = 143 ∧ e.call = Call.Encode := by
  rw [main_split] at h ⊢
  obtain ⟨personData, _, h2, hd⟩ := Go.bind_step_next _ _ u h
  obtain ⟨d, _, h3, hd2⟩ := Go.bind_step_next _ _ u h2
  obtain ⟨e, he, h143⟩ := dynamicPart_reaches L personData d u h3
  refine ⟨e, ?_, h143⟩
  rw [hd, hd2]
  simp [Proc.andThen, he]

/-! ## The descriptor lookup -/

/-- Lines 128-143 begin with the call of `dynamicpb.NewMessage` on the
descriptor they are given, nil or not. -/
theorem dynamicPart_first (L : Lib) (personData : Bytes) (d : Option L.MessageDescriptor) :
    ∃ o post, (dynamicPart L personData d).did.trace =
      ⟨129, Call.NewMessage d.isNone, o⟩ :: post := by
  unfold dynamicPart
  rcases h129 : L.NewMessage d with m | msg
  · refine ⟨Outcome.returned, ?_⟩
    cases hs : (Go.bind (callErr 130 Call.Unmarshal (L.Unmarshal_Dynamic personData m))
      (fun r => match r with
        | .error err => logFatalf ("Error parsing personData: " ++ err)
        | .ok dynamicMessage => do
          write ("Deserialized dynamic person: " ++ L.fmtDynamic dynamicMessage ++ "\n")
          let node ← call 140 (.Wrap true) (L.Wrap (.dynamicMessage dynamicMessage) none)
          let nodeRepr ← call 142 .Representation (L.Representation node)
          let _ ← callEncode 143 (L.Encode nodeRepr)
          pure ())).step <;>
      simp [bind_eq_go, pure_eq_go, Go.bind, Go.pure, call, record, Proc.andThen,
        Proc.nothing]
  · exact ⟨Outcome.panicked msg, [], by
      simp [bind_eq_go, pure_eq_go, Go.bind, Go.pure, call, record, goPanic, die,
        Proc.andThen, Proc.nothing]⟩

/-- The statement `fmt.Println(a, b)` writes `a`, a blank, `b`. -/
theorem intercalate_pair (a b : String) : " ".intercalate [a, b] = a ++ (" " ++ b) := by
  simp [String.intercalate, String.intercalate.go, String.append_assoc]

/-- The statement `fmt.Println()` writes the newline only. -/
theorem intercalate_nil : " ".intercalate [] = "" := rfl

theorem nil_descriptor_line (a : String) :
    a ++ ("Person MessageDescriptor:" ++ (" " ++ "<nil>") ++ "\n" ++ "\n") =
      a ++ "Person MessageDescriptor: <nil>\n" ++ "\n" := by
  have h : ("Person MessageDescriptor:" ++ (" " ++ "<nil>") ++ "\n" : String) =
      "Person MessageDescriptor: <nil>\n" := by decide
  rw [h, String.append_assoc]

theorem original_person_line (x : String) :
    "Original person: " ++ (" " ++ x) = "Original person:  " ++ x := by
  rw [← String.append_assoc]
  rfl

/-- What lines 24-76 write when their calls return: the encoder's text, the
line for `person`, the line for `newPerson`.  The error result of the encode
call plays no part. -/
theorem beforeDescriptor_stdout (L : Lib) (ts : L.TypeSystem) (st : Option L.SchemaType)
    (node repr : L.Node) (e : Option String) (data : Bytes) (np : ModelPerson)
    (h24 : L.LoadSchemaBytes schemaText = .returned (.ok ts))
    (h34 : L.TypeByName ts "Person" = .returned st)
    (h45 : L.Wrap (.person ipldPerson) st = .returned node)
    (h47 : L.Representation node = .returned repr)
    (h48 : (L.Encode repr).2 = .returned e)
    (h64 : L.Marshal person = .returned (.ok data))
    (h71 : L.Unmarshal_Person data emptyPerson = .returned (.ok np)) :
    (beforeDescriptor L).did.stdout =
      (L.Encode repr).1 ++ ("Original person:  " ++ L.fmtPerson person ++ "\n")
        ++ ("Deserialized person: " ++ L.fmtPerson np ++ "\n") := by
  rcases hE : L.Encode repr with ⟨w, r⟩
  rw [hE] at h48
  simp only at h48
  subst h48
  cases st <;> cases e <;>
    simp [beforeDescriptor, schemaPart, roundTripPart, bind_eq_go, pure_eq_go, Go.bind, Go.pure,
      callErr, callNilable, call, callEncode, write, record, Println, h24, h34, h45, h47, hE,
      h64, h71, Proc.andThen, Proc.nothing, intercalate_pair, original_person_line,
      String.append_assoc]

/-- Lines 24-76 when their calls return: control goes on with the marshalled
bytes, nothing is on standard error, and the calls made are those of lines 24,
34, 45, 47, 48, 64 and 71.  The error result of the encode call plays no part. -/
theorem beforeDescriptor_ok (L : Lib) (ts : L.TypeSystem) (st : Option L.SchemaType)
    (node repr : L.Node) (e : Option String) (data : Bytes) (np : ModelPerson)
    (h24 : L.LoadSchemaBytes schemaText = .returned (.ok ts))
    (h34 : L.TypeByName ts "Person" = .returned st)
    (h45 : L.Wrap (.person ipldPerson) st = .returned node)
    (h47 : L.Representation node = .returned repr)
    (h48 : (L.Encode repr).2 = .returned e)
    (h64 : L.Marshal person = .returned (.ok data))
    (h71 : L.Unmarshal_Person data emptyPerson = .returned (.ok np)) :
    (beforeDescriptor L).step = Step.next data ∧
    (beforeDescriptor L).did.stderr = [] ∧
    (beforeDescriptor L).did.trace.map Event.line = [24, 34, 45, 47, 48, 64, 71] := by
  rcases hE : L.Encode repr with ⟨w, r⟩
  rw [hE] at h48
  simp only at h48
  subst h48
  cases st <;> cases e <;>
    simp [beforeDescriptor, schemaPart, roundTripPart, bind_eq_go, pure_eq_go, Go.bind, Go.pure,
      callErr, callNilable, call, callEncode, write, record, Println, h24, h34, h45, h47, hE,
      h64, h71, Proc.andThen, Proc.nothing]

/-- Lines 84-126 when the file is read, parsed, registered and found, and the
lookup of line 124 returns nil: control goes on with the nil descriptor, nothing
is on standard error, the lookup is the last of the five calls, and the nil
descriptor and an empty line are the last things printed. -/
theorem descriptorPart_found_miss (L : Lib) (ReadFile : String → Except String Bytes)
    (descriptorSet : Bytes) (set : L.FileDescriptorSet) (files : L.Files)
    (fd : L.FileDescriptor)
    (h89 : ReadFile sourceDescriptorFilePath = .ok descriptorSet)
    (h96 : L.Unmarshal_FileDescriptorSet descriptorSet = .returned (.ok set))
    (h101 : L.NewFiles set = .returned (.ok files))
    (h107 : L.FindFileByPath files protoFilePath = .returned (.ok fd))
    (h124 : L.ByName (L.Messages fd) protoMessageName = .returned none) :
    (descriptorPart L ReadFile).step = Step.next none ∧
    (descriptorPart L ReadFile).did.stderr = [] ∧
    (descriptorPart L ReadFile).did.trace =
      [⟨89, Call.ReadFile, Outcome.returned⟩, ⟨96, Call.Unmarshal, Outcome.returned⟩,
       ⟨101, Call.NewFiles, Outcome.returned⟩, ⟨107, Call.FindFileByPath, Outcome.returned⟩,
       ⟨124, Call.ByName, Outcome.returnedNil⟩] ∧
    (∃ a, (descriptorPart L ReadFile).did.stdout =
      a ++ "Person MessageDescriptor: <nil>\n" ++ "\n") := by
  refine ⟨?_, ?_, ?_, ?_⟩
  · simp [descriptorPart, bind_eq_go, pure_eq_go, Go.bind, Go.pure, callReadFile, callErr,
      callNilable, record, Println, write, Proc.andThen, Proc.nothing, h89, h96, h101, h107,
      h124]
  · simp [descriptorPart, bind_eq_go, pure_eq_go, Go.bind, Go.pure, callReadFile, callErr,
      callNilable, record, Println, write, Proc.andThen, Proc.nothing, h89, h96, h101, h107,
      h124]
  · simp [descriptorPart, bind_eq_go, pure_eq_go, Go.bind, Go.pure, callReadFile, callErr,
      callNilable, record, Println, write, Proc.andThen, Proc.nothing, h89, h96, h101, h107,
      h124]
  · refine ⟨"\n" ++ ("FileDescriptor: " ++ (" " ++ L.fmtFileDescriptor fd) ++ "\n") ++ "\n"
      ++ ("File path: " ++ (" " ++ L.Path fd) ++ "\n")
      ++ ("Package name: " ++ (" " ++ L.Package fd) ++ "\n")
      ++ ("Messages: " ++ (" " ++ L.fmtMessages (L.Messages fd)) ++ "\n") ++ "\n", ?_⟩
    rw [← nil_descriptor_line]
    simp only [descriptorPart, bind_eq_go, pure_eq_go, Go.bind, Go.pure, callReadFile, callErr,
      callNilable, record, Println, write, Proc.andThen, Proc.nothing, h89, h96, h101, h107,
      h124, fmtNilable, intercalate_pair, intercalate_nil, String.append_assoc,
      String.empty_append, String.append_empty]

/-! ## The claims -/

/-- C8 as stated fails: in the usual run none of the checked errors occurs, the
final schema-less bind of line 140 fails (it panics), and the exit status is 2,
not zero. -/
theorem final_bind_failure_exit_nonzero :
    (∀ e ∈ (run (scripted usual) descriptorPresent).trace, e.enumeratedError = false) ∧
    ⟨140, Call.Wrap true, Outcome.panicked "bindnode: unable to infer from interface"⟩ ∈
        (run (scripted usual) descriptorPresent).trace ∧
    (run (scripted usual) descriptorPresent).exit = 2 := by
  decide

/-- C8, amended: a fatal event (an error that `main` checks, or a panic of a
library call, which is how a bind fails) gives a non-zero exit status and a
diagnostic; a run in which every library call returns without error or panic
reaches the encode call of line 143 and exits with status zero and no
diagnostic. -/
theorem exit_status (L : Lib) (ReadFile : String → Except String Bytes) :
    ((∃ e ∈ (run L ReadFile).trace, e.fatal = true) →
      (run L ReadFile).exit ≠ 0 ∧ (run L ReadFile).stderr ≠ []) ∧
    ((∀ e ∈ (run L ReadFile).trace, e.succeeded = true) →
      (run L ReadFile).exit = 0 ∧ (run L ReadFile).stderr = [] ∧
      ∃ e ∈ (run L ReadFile).trace, e.line = 143 ∧ e.call = Call.Encode) := by
  have hs := main_sound L ReadFile
  simp only [run]
  cases hstep : (main L ReadFile).step with
  | next u =>
    obtain ⟨h1, h2⟩ := hs.1 u hstep
    constructor
    · rintro ⟨e, he, hfat⟩
      rw [h2 e he] at hfat
      exact absurd hfat (by simp)
    · intro _
      exact ⟨rfl, h1, main_reaches L ReadFile u hstep⟩
  | exit c =>
    obtain ⟨h1, h2, e, he, hfat⟩ := hs.2 c hstep
    constructor
    · intro _
      exact ⟨h1, h2⟩
    · intro hquiet
      rw [Event.succeeded_not_fatal e (hquiet e he)] at hfat
      exact absurd hfat (by simp)

/-- C8, amended, at concrete runs: the usual run has the panic of line 140 and
exits non-zero; the run in which the final bind returns a view has only clean
calls and exits zero. -/
theorem exit_status_witness :
    ((run (scripted usual) descriptorPresent).exit ≠ 0 ∧
      (run (scripted usual) descriptorPresent).stderr ≠ []) ∧
    ((run (scripted { usual with inferPanics := false }) descriptorPresent).exit = 0 ∧
      (run (scripted { usual with inferPanics := false }) descriptorPresent).stderr = [] ∧
      ∃ e ∈ (run (scripted { usual with inferPanics := false }) descriptorPresent).trace,
        e.line = 143 ∧ e.call = Call.Encode) :=
  ⟨(exit_status (scripted usual) descriptorPresent).1 (by decide),
   (exit_status (scripted { usual with inferPanics := false }) descriptorPresent).2
     (by decide)⟩

/-- C9: when the steps up to the file lookup succeed (`person.proto` is found)
and the lookup of `Person` on line 124 returns nil, `main` neither checks nor
stops: after the calls of lines 24-107 the trace has the lookup and, right after
it, `dynamicpb.NewMessage` of line 129 with the nil descriptor; the nil
descriptor is printed, followed by what lines 128-143 print; and the exit status
and every diagnostic are those of lines 128-143 run on the nil descriptor, none
comes from the lookup. -/
theorem lookup_miss_not_fatal (L : Lib) (ReadFile : String → Except String Bytes)
    (ts : L.TypeSystem) (st : Option L.SchemaType) (node repr : L.Node) (e : Option String)
    (data : Bytes) (np : ModelPerson) (descriptorSet : Bytes) (set : L.FileDescriptorSet)
    (files : L.Files) (fd : L.FileDescriptor)
    (h24 : L.LoadSchemaBytes schemaText = .returned (.ok ts))
    (h34 : L.TypeByName ts "Person" = .returned st)
    (h45 : L.Wrap (.person ipldPerson) st = .returned node)
    (h47 : L.Representation node = .returned repr)
    (h48 : (L.Encode repr).2 = .returned e)
    (h64 : L.Marshal person = .returned (.ok data))
    (h71 : L.Unmarshal_Person data emptyPerson = .returned (.ok np))
    (h89 : ReadFile sourceDescriptorFilePath = .ok descriptorSet)
    (h96 : L.Unmarshal_FileDescriptorSet descriptorSet = .returned (.ok set))
    (h101 : L.NewFiles set = .returned (.ok files))
    (h107 : L.FindFileByPath files protoFilePath = .returned (.ok fd))
    (h124 : L.ByName (L.Messages fd) protoMessageName = .returned none) :
    (∃ pre o post, (run L ReadFile).trace =
      pre ++ ⟨124, Call.ByName, Outcome.returnedNil⟩ ::
        ⟨129, Call.NewMessage true, o⟩ :: post ∧
      pre.map Event.line = [24, 34, 45, 47, 48, 64, 71, 89, 96, 101, 107]) ∧
    (∃ a, (run L ReadFile).stdout =
      a ++ "Person MessageDescriptor: <nil>\n" ++ "\n" ++
        (dynamicPart L data none).did.stdout) ∧
    (run L ReadFile).exit = exitStatus (dynamicPart L data none).step ∧
    (run L ReadFile).stderr = (dynamicPart L data none).did.stderr := by
  obtain ⟨hb, hberr, hbtr⟩ :=
    beforeDescriptor_ok L ts st node repr e data np h24 h34 h45 h47 h48 h64 h71
  obtain ⟨hd, hderr, hdtr, a, ha⟩ :=
    descriptorPart_found_miss L ReadFile descriptorSet set files fd h89 h96 h101 h107 h124
  obtain ⟨o, post, hpost⟩ := dynamicPart_first L data none
  simp only [run]
  rw [main_split, Go.bind_next _ _ data hb, Go.bind_next _ _ none hd]
  refine ⟨⟨(beforeDescriptor L).did.trace ++
      [⟨89, Call.ReadFile, Outcome.returned⟩, ⟨96, Call.Unmarshal, Outcome.returned⟩,
       ⟨101, Call.NewFiles, Outcome.returned⟩, ⟨107, Call.FindFileByPath, Outcome.returned⟩],
      o, post, ?_, ?_⟩, ⟨(beforeDescriptor L).did.stdout ++ a, ?_⟩, rfl, ?_⟩
  · simp only [Proc.andThen, hdtr, hpost, Option.isNone_none, List.append_assoc,
      List.cons_append, List.nil_append]
  · simp [hbtr]
  · simp only [Proc.andThen, ha, String.append_assoc]
  · simp [Proc.andThen, hberr, hderr]

/-- C9 at a concrete run: the file `person.proto` is found and declares only
`Address`, the lookup of `Person` returns nil, and the run goes on to line 129. -/
theorem lookup_miss_not_fatal_witness :
    (∃ pre o post, (run (scripted noPersonMessage) descriptorPresent).trace =
      pre ++ ⟨124, Call.ByName, Outcome.returnedNil⟩ ::
        ⟨129, Call.NewMessage true, o⟩ :: post ∧
      pre.map Event.line = [24, 34, 45, 47, 48, 64, 71, 89, 96, 101, 107]) ∧
    (∃ a, (run (scripted noPersonMessage) descriptorPresent).stdout =
      a ++ "Person MessageDescriptor: <nil>\n" ++ "\n" ++
        (dynamicPart (scripted noPersonMessage) alexBytes none).did.stdout) ∧
    (run (scripted noPersonMessage) descriptorPresent).exit =
      exitStatus (dynamicPart (scripted noPersonMessage) alexBytes none).step ∧
    (run (scripted noPersonMessage) descriptorPresent).stderr =
      (dynamicPart (scripted noPersonMessage) alexBytes none).did.stderr :=
  lookup_miss_not_fatal (scripted noPersonMessage) descriptorPresent
    () (some ()) "\x7b\"Name\":\"Michael\",\"Friends\":[\"Sarah\",\"Alex\"]\x7d"
    "\x7b\"Name\":\"Michael\",\"Friends\":[\"Sarah\",\"Alex\"]\x7d" none alexBytes person
    [10, 0] [10, 0] [10, 0] "person.proto" rfl rfl rfl rfl rfl rfl rfl rfl rfl rfl rfl rfl

/-- C10: what lines 24-76 write to standard output does not depend on the
descriptor file, and every run starts with it, whatever the file holds and also
when reading it fails; when the calls of those lines return, it is the encoder's
text, then the line for `person`, then the line for `newPerson`. -/
theorem early_output_fixed (L : Lib) (ReadFile₁ ReadFile₂ : String → Except String Bytes) :
    (∃ rest₁ rest₂,
      (run L ReadFile₁).stdout = (beforeDescriptor L).did.stdout ++ rest₁ ∧
      (run L ReadFile₂).stdout = (beforeDescriptor L).did.stdout ++ rest₂) ∧
    (∀ (ts : L.TypeSystem) (st : Option L.SchemaType) (node repr : L.Node)
      (e : Option String) (data : Bytes) (np : ModelPerson),
      L.LoadSchemaBytes schemaText = .returned (.ok ts) →
      L.TypeByName ts "Person" = .returned st →
      L.Wrap (.person ipldPerson) st = .returned node →
      L.Representation node = .returned repr →
      (L.Encode repr).2 = .returned e →
      L.Marshal person = .returned (.ok data) →
      L.Unmarshal_Person data emptyPerson = .returned (.ok np) →
      (beforeDescriptor L).did.stdout =
        (L.Encode repr).1 ++ ("Original person:  " ++ L.fmtPerson person ++ "\n")
          ++ ("Deserialized person: " ++ L.fmtPerson np ++ "\n")) := by
  constructor
  · obtain ⟨r₁, h₁⟩ := Go.bind_stdout (beforeDescriptor L) (fun personData =>
      Go.bind (descriptorPart L ReadFile₁) (fun d => dynamicPart L personData d))
    obtain ⟨r₂, h₂⟩ := Go.bind_stdout (beforeDescriptor L) (fun personData =>
      Go.bind (descriptorPart L ReadFile₂) (fun d => dynamicPart L personData d))
    refine ⟨r₁, r₂, ?_, ?_⟩
    · simp only [run]; rw [main_split]; exact h₁
    · simp only [run]; rw [main_split]; exact h₂
  · intro ts st node repr e data np h24 h34 h45 h47 h48 h64 h71
    exact beforeDescriptor_stdout L ts st node repr e data np h24 h34 h45 h47 h48 h64 h71

/-- C10 at concrete runs: with the descriptor file present and with it missing,
the output starts with the same text of lines 24-76, which is the encoder's text
and the two lines for `person` and `newPerson`. -/
theorem early_output_fixed_witness :
    (∃ rest₁ rest₂,
      (run (scripted usual) descriptorPresent).stdout =
        (beforeDescriptor (scripted usual)).did.stdout ++ rest₁ ∧
      (run (scripted usual) descriptorMissing).stdout =
        (beforeDescriptor (scripted usual)).did.stdout ++ rest₂) ∧
    (beforeDescriptor (scripted usual)).did.stdout =
      "\x7b\"Name\":\"Michael\",\"Friends\":[\"Sarah\",\"Alex\"]\x7d" ++
        ("Original person:  " ++ "name:\"Alex\" age:20" ++ "\n") ++
        ("Deserialized person: " ++ "name:\"Alex\" age:20" ++ "\n") :=
  ⟨(early_output_fixed (scripted usual) descriptorPresent descriptorMissing).1,
   (early_output_fixed (scripted usual) descriptorPresent descriptorMissing).2
     () (some ()) "\x7b\"Name\":\"Michael\",\"Friends\":[\"Sarah\",\"Alex\"]\x7d"
     "\x7b\"Name\":\"Michael\",\"Friends\":[\"Sarah\",\"Alex\"]\x7d" none alexBytes person
     rfl rfl rfl rfl rfl rfl rfl⟩

end GoIpldTest
